import Mathlib

/-!
Verification development for the YouTube playlist / music downloader script
(`src/ytmusic_downloader.py`).  The Python source is shallowly embedded:
pure string manipulation becomes Lean functions on `String`/`List Char`,
the mutable set of already-downloaded filenames becomes an explicit
`Finset String` threaded through the functions, the yt-dlp backend becomes
a function parameter returning `Except String Unit`, and observable side
effects (backend invocations, `time.sleep` calls, console prints, lock
acquisitions) are recorded in explicit result fields or event traces.
Machine-level concerns (the rich progress UI rendering, actual file I/O)
are out of the embedded core, exactly as in the script where they are
delegated to external libraries.
-/

/-- The apostrophe character, built from its code point. -/
def apos : Char := Char.ofNat 39

/-- The double-quote character, built from its code point. -/
def dquote : Char := Char.ofNat 34

/-- The backslash character, built from its code point. -/
def bslash : Char := Char.ofNat 92

/-- The characters of the character class in the regex
`[\\/:"*?<>|]+` of `sanitize_folder_name` (line 46 of the source). -/
def reservedChar (c : Char) : Bool :=
  c = bslash || c = '/' || c = ':' || c = dquote || c = '*' ||
  c = '?' || c = '<' || c = '>' || c = '|'

/-- Embedding of `re.sub(r'[\\/:"*?<>|]+', '_', name)` on the character
list: a maximal run of reserved characters is replaced by a single `_`.
The boolean argument records whether the previous character belonged to a
run that has already emitted its `_`. -/
def sanAux : Bool → List Char → List Char
  | _, [] => []
  | inRun, c :: cs =>
    if reservedChar c then
      if inRun then sanAux true cs else '_' :: sanAux true cs
    else c :: sanAux false cs

/-- `sanitize_folder_name` from the source (lines 45-46): replace every
maximal sequence of filesystem-reserved characters by one underscore. -/
def sanitize_folder_name (name : String) : String :=
  String.mk (sanAux false name.data)

/-- Embedding of Python `str.lower()` (ASCII case folding suffices for the
error messages classified by the script). -/
def strLower (s : String) : String :=
  String.mk (s.data.map Char.toLower)

/-- Whether the first list is an initial segment of the second. -/
def listStartsWith : List Char → List Char → Bool
  | [], _ => true
  | _ :: _, [] => false
  | a :: as, b :: bs => a == b && listStartsWith as bs

/-- Whether `needle` occurs contiguously somewhere inside the second list:
the embedding of Python's `needle in haystack` test on strings. -/
def listHasSub (needle : List Char) : List Char → Bool
  | [] => needle.isEmpty
  | b :: bs => listStartsWith needle (b :: bs) || listHasSub needle bs

/-- Python's substring containment `needle in hay` for strings. -/
def strContainsSub (hay needle : String) : Bool :=
  listHasSub needle.data hay.data

/-- The literal `"content isn't available"` matched at line 135/139 of the
source (the apostrophe is spelled via its code point). -/
def contentUnavailablePhrase : String :=
  "content isn" ++ String.mk [apos] ++ "t available"

/-- The literal `"try again later"` matched at line 135/139 of the source. -/
def tryAgainPhrase : String := "try again later"

/-- `str(KeyError('url'))`, i.e. the message produced when
`entry['url']` is evaluated on a dict without a `url` key: the quoted key
name. -/
def keyErrUrl : String := String.mk [apos] ++ "url" ++ String.mk [apos]

/-- The transient-error test of lines 135 and 139 of the source, applied to
the lowered message `err = str(e).lower()`:
`"content isn't available" in err or "try again later" in err`. -/
def isTransientMsg (e : String) : Bool :=
  strContainsSub (strLower e) contentUnavailablePhrase ||
  strContainsSub (strLower e) tryAgainPhrase

/-- One playlist entry as `download_video` consumes it: a dict with
optional `title` and `url` keys (`none` models an absent key). -/
structure Entry where
  title : Option String
  url : Option String
deriving DecidableEq

/-- The four distinct return paths of `download_video`, distinguished in
the source by their observable effects (which message is printed, whether
the index is mutated, whether `time.sleep(10)` runs), even though the
Python return value collapses them to a bool. -/
inductive Outcome where
  | success : Outcome
  | skippedDuplicate : Outcome
  | transientFailure : String → Outcome
  | permanentFailure : String → Outcome
deriving DecidableEq

/-- The Python boolean actually returned by `download_video` for each
outcome: `True` on success and on skip, `False` on either failure. -/
def Outcome.toBool : Outcome → Bool
  | Outcome.success => true
  | Outcome.skippedDuplicate => true
  | Outcome.transientFailure _ => false
  | Outcome.permanentFailure _ => false

/-- Result of one run of `download_video`: the outcome (which return path
ran), the bool the Python function returns, the set `existing_files` as the
job leaves it, how many times the backend download was invoked, and how
many seconds were spent in `time.sleep`. -/
structure DVResult where
  outcome : Outcome
  retVal : Bool
  index : Finset String
  backendCalls : Nat
  sleepSeconds : Nat
deriving DecidableEq

/-- Lines 98-100 of the source: the output filename of an entry,
`sanitize_folder_name(entry.get('title', 'unknown_title')) + ".mp3"`. -/
def dvFilename (entry : Entry) : String :=
  sanitize_folder_name (entry.title.getD "unknown_title") ++ ".mp3"

/-- The `except Exception` branch of `download_video` (lines 132-144):
classify the message; a transient message sleeps 10 seconds, any other
returns at once; both paths return `False` and leave the index alone. -/
def classifyFailure (e : String) (existing : Finset String) (calls : Nat) :
    DVResult :=
  if isTransientMsg e then
    ⟨Outcome.transientFailure e, false, existing, calls, 10⟩
  else
    ⟨Outcome.permanentFailure e, false, existing, calls, 0⟩

/-- Embedding of `download_video(entry, playlist_folder, existing_files)`
(lines 97-144).  `backend u` models `ydl.download([u])`: `Except.ok` when
the download succeeds and `Except.error e` when it raises an exception
with message `e`.  An absent `url` key makes `entry['url']` raise
`KeyError('url')` inside the `try`, before any backend call, and the
`except Exception` clause catches it like any other error. -/
def download_video (backend : String → Except String Unit) (entry : Entry)
    (existing_files : Finset String) : DVResult :=
  let filename := dvFilename entry
  if filename ∈ existing_files then
    ⟨Outcome.skippedDuplicate, true, existing_files, 0, 0⟩
  else
    match entry.url with
    | none => classifyFailure keyErrUrl existing_files 0
    | some u =>
      match backend u with
      | Except.ok _ =>
        ⟨Outcome.success, true, insert filename existing_files, 1, 0⟩
      | Except.error e => classifyFailure e existing_files 1

/-- The submission loop of `main` (lines 209-217): for each entry, if its
filename is already in `existing_files` the entry is reported as skipped
and the progress bar advanced at once; otherwise the entry is submitted to
the pool.  Returns (number of immediate advances, submitted entries, in
submission order).  The loop reads `existing_files` without mutating it. -/
def submitPhase (existing : Finset String) : List Entry → Nat × List Entry
  | [] => (0, [])
  | e :: es =>
    let rest := submitPhase existing es
    if dvFilename e ∈ existing then (rest.1 + 1, rest.2)
    else (rest.1, e :: rest.2)

/-- The completion loop of `main` (lines 219-220) together with the pool's
job executions, modelled under the admissible schedule in which all
submissions happen before any job runs (the `as_completed` drain begins
only after the submission loop) and jobs run one at a time in submission
order.  Each completed future advances the progress bar exactly once.
Returns (number of advances, final index, outcomes in order). -/
def runJobs (backend : String → Except String Unit) :
    Finset String → List Entry → Nat × Finset String × List Outcome
  | idx, [] => (0, idx, [])
  | idx, e :: es =>
    let r := download_video backend e idx
    let rest := runJobs backend r.index es
    (rest.1 + 1, rest.2.1, r.outcome :: rest.2.2)

/-- Total number of progress-bar advances that processing one playlist's
entry list performs (pre-skip advances plus one advance per completed
submitted job), per lines 205-220 of the source. -/
def collectionAdvances (backend : String → Except String Unit)
    (existing : Finset String) (entries : List Entry) : Nat :=
  let sub := submitPhase existing entries
  (runJobs backend existing sub.2).1 + sub.1

/-- The value `get_playlist_info(url)` resolves to: an info dict with an
optional `title` key and a list of entries (`info.get('entries', [])`
defaults an absent key to the empty list, so entries are a plain list). -/
structure PlaylistInfo where
  title : Option String
  entries : List Entry
deriving DecidableEq

/-- What one iteration of `main`'s playlist loop amounts to: the iteration
raised and was caught by the `except Exception` at line 224 (`failed`), the
playlist had no entries and was reported and skipped (`noVideos`), or its
entries were processed (`processedAll` with the number of progress
advances and the job outcomes). -/
inductive PlaylistResult where
  | failed : String → PlaylistResult
  | noVideos : String → PlaylistResult
  | processedAll : String → Nat → List Outcome → PlaylistResult
deriving DecidableEq

/-- The body of `main`'s per-playlist `try` block (lines 178-222):
resolve the URL, derive and create the playlist folder, bail out on an
empty entry list, scan the folder for existing `.mp3` files, then run the
submission and completion loops.  `resolve` models `get_playlist_info`
(raising = `Except.error`), `mkdir` models `playlist_folder.mkdir`
(raising = `Except.error`), and `dirFiles` models the
`playlist_folder.glob("*.mp3")` scan keyed by the sanitized title. -/
def processPlaylistCore (resolve : String → Except String PlaylistInfo)
    (mkdir : String → Except String Unit)
    (dirFiles : String → Finset String)
    (backend : String → Except String Unit) (url : String) :
    Except String PlaylistResult :=
  match resolve url with
  | Except.error e => Except.error e
  | Except.ok info =>
    let playlist_title := info.title.getD "UnknownPlaylist"
    let safe_title := sanitize_folder_name playlist_title
    match mkdir safe_title with
    | Except.error e => Except.error e
    | Except.ok _ =>
      if info.entries.isEmpty then
        Except.ok (PlaylistResult.noVideos playlist_title)
      else
        let existing := dirFiles safe_title
        Except.ok (PlaylistResult.processedAll playlist_title
          (collectionAdvances backend existing info.entries)
          (runJobs backend existing (submitPhase existing info.entries).2).2.2)

/-- One iteration of `main`'s playlist loop including its
`except Exception` handler (lines 224-226): any error raised while
processing the playlist is caught and turned into a reported value, after
which the loop moves on. -/
def processPlaylist (resolve : String → Except String PlaylistInfo)
    (mkdir : String → Except String Unit)
    (dirFiles : String → Finset String)
    (backend : String → Except String Unit) (url : String) : PlaylistResult :=
  match processPlaylistCore resolve mkdir dirFiles backend url with
  | Except.error e => PlaylistResult.failed e
  | Except.ok r => r

/-- `main`'s loop over the entered playlist URLs (line 174): playlists are
processed sequentially, one result per URL, no cross-playlist state. -/
def processPlaylists (resolve : String → Except String PlaylistInfo)
    (mkdir : String → Except String Unit)
    (dirFiles : String → Finset String)
    (backend : String → Except String Unit) :
    List String → List PlaylistResult
  | [] => []
  | u :: us =>
    processPlaylist resolve mkdir dirFiles backend u ::
      processPlaylists resolve mkdir dirFiles backend us

/-- The atomic events a run of `download_video` performs, in program
order, used to examine the lock discipline of the script.  `lockAcquire`
and `lockRelease` are entry/exit of a `with console_lock:` block;
`indexRead` is the membership test `filename in existing_files` (line
102); `indexWrite` is `existing_files.add(filename)` (line 130). -/
inductive JobEvent where
  | indexRead : JobEvent
  | indexWrite : JobEvent
  | lockAcquire : JobEvent
  | lockRelease : JobEvent
  | backendCall : JobEvent
  | consoleMsg : JobEvent
  | sleepSec : Nat → JobEvent
deriving DecidableEq

/-- Events of the `except` branch (lines 132-144): one locked print (the
warning or the error message), then, for a transient message only, the
10-second sleep and a second locked print. -/
def failActions (e : String) : List JobEvent :=
  [JobEvent.lockAcquire, JobEvent.consoleMsg, JobEvent.lockRelease] ++
  (if isTransientMsg e then
    [JobEvent.sleepSec 10, JobEvent.lockAcquire, JobEvent.consoleMsg,
     JobEvent.lockRelease]
  else [])

/-- The event trace of one `download_video` call, read off the source
lines 97-144: the duplicate-check read happens outside any lock; every
console print happens inside `with console_lock:`; the success-path index
insertion (line 130) happens after the lock has been released. -/
def downloadTrace (backend : String → Except String Unit) (entry : Entry)
    (existing_files : Finset String) : List JobEvent :=
  if dvFilename entry ∈ existing_files then
    [JobEvent.indexRead, JobEvent.lockAcquire, JobEvent.consoleMsg,
     JobEvent.lockRelease]
  else
    JobEvent.indexRead :: JobEvent.lockAcquire :: JobEvent.consoleMsg ::
      JobEvent.lockRelease ::
      (match entry.url with
       | none => failActions keyErrUrl
       | some u =>
         match backend u with
         | Except.ok _ =>
           [JobEvent.backendCall, JobEvent.lockAcquire, JobEvent.consoleMsg,
            JobEvent.lockRelease, JobEvent.indexWrite]
         | Except.error e => JobEvent.backendCall :: failActions e)

/-- Pair each action of a trace with the number of locks held at the
moment it executes (the depth before a `lockAcquire` takes effect). -/
def annotateDepth : Nat → List JobEvent → List (JobEvent × Nat)
  | _, [] => []
  | d, a :: rest =>
    let d' :=
      match a with
      | JobEvent.lockAcquire => d + 1
      | JobEvent.lockRelease => d - 1
      | _ => d
    (a, d) :: annotateDepth d' rest

/-- The mutual-exclusion discipline the spec asserts for the index: every
read or write of `existing_files` in the job's trace executes while at
least one lock is held. -/
def indexAccessesLocked (tr : List JobEvent) : Prop :=
  ∀ p ∈ annotateDepth 0 tr,
    (p.1 = JobEvent.indexRead ∨ p.1 = JobEvent.indexWrite) → 0 < p.2

instance (tr : List JobEvent) : Decidable (indexAccessesLocked tr) := by
  unfold indexAccessesLocked
  infer_instance

/-! ## Helper lemmas -/

lemma sanAux_no_reserved (l : List Char) :
    ∀ b, ∀ c ∈ sanAux b l, reservedChar c = false := by
  induction l with
  | nil =>
    intro b c hc
    simp [sanAux] at hc
  | cons a as ih =>
    intro b c hc
    rw [sanAux.eq_def] at hc
    simp only [] at hc
    split at hc
    next hres =>
      split at hc
      next => exact ih true c hc
      next =>
        rcases List.mem_cons.mp hc with rfl | hc'
        · decide
        · exact ih true c hc'
    next hres =>
      rcases List.mem_cons.mp hc with rfl | hc'
      · exact Bool.eq_false_iff.mpr hres
      · exact ih false c hc'

lemma sanAux_fixed (l : List Char) (h : ∀ c ∈ l, reservedChar c = false) :
    sanAux false l = l := by
  induction l with
  | nil => simp [sanAux]
  | cons a as ih =>
    have ha : reservedChar a = false := h a (by simp)
    simp only [sanAux, ha, Bool.false_eq_true, if_false, List.cons.injEq,
      true_and]
    exact ih fun c hc => h c (List.mem_cons_of_mem _ hc)

lemma submitPhase_count (existing : Finset String) (entries : List Entry) :
    (submitPhase existing entries).1 +
      (submitPhase existing entries).2.length = entries.length := by
  induction entries with
  | nil => simp [submitPhase]
  | cons a es ih =>
    by_cases h : dvFilename a ∈ existing
    · simp only [submitPhase, h, if_true, List.length_cons]
      omega
    · simp only [submitPhase, h, if_false, List.length_cons]
      omega

lemma runJobs_count (backend : String → Except String Unit)
    (idx : Finset String) (entries : List Entry) :
    (runJobs backend idx entries).1 = entries.length := by
  induction entries generalizing idx with
  | nil => simp [runJobs]
  | cons e es ih => simp [runJobs, ih]

lemma keyErrUrl_not_transient : isTransientMsg keyErrUrl = false := by decide

/-! ## Claim theorems -/

/-- C1: if the filename `sanitize(title) + ".mp3"` is already in the
existing-output index when the job runs, `download_video` takes the
skipped-duplicate path: it returns at once (the Python `True`), makes no
backend call, sleeps zero seconds, and leaves the index unchanged. -/
theorem download_video_skips_duplicates
    (backend : String → Except String Unit) (entry : Entry)
    (existing_files : Finset String)
    (h : dvFilename entry ∈ existing_files) :
    download_video backend entry existing_files =
      ⟨Outcome.skippedDuplicate, true, existing_files, 0, 0⟩ := by
  unfold download_video
  simp [h]

/-- Witness for C1: a directory pre-populated with `"Song A.mp3"` and an
item titled `"Song A"` produce the skipped-duplicate result with zero
backend calls and an unchanged index. -/
theorem download_video_skips_duplicates_witness :
    dvFilename ⟨some "Song A", some "u"⟩ ∈ ({"Song A.mp3"} : Finset String) ∧
    download_video (fun _ => Except.ok ()) ⟨some "Song A", some "u"⟩
        {"Song A.mp3"} =
      ⟨Outcome.skippedDuplicate, true, {"Song A.mp3"}, 0, 0⟩ :=
  ⟨by decide,
    download_video_skips_duplicates (fun _ => Except.ok ())
      ⟨some "Song A", some "u"⟩ {"Song A.mp3"} (by decide)⟩

/-- C2: every error the backend's download call raises is caught inside
`download_video` and converted to an outcome value: the function returns
the Python `False` and the outcome is a transient or permanent failure
carrying the error's message.  (In the embedding `download_video` is a
total function into `DVResult`, mirroring the `try`/`except Exception`
that encloses the whole backend call, so no exception escapes the job.) -/
theorem download_video_catches_backend_errors
    (backend : String → Except String Unit) (entry : Entry)
    (existing_files : Finset String) (u e : String)
    (hu : entry.url = some u) (hb : backend u = Except.error e)
    (hdup : dvFilename entry ∉ existing_files) :
    (download_video backend entry existing_files).retVal = false ∧
    ((download_video backend entry existing_files).outcome =
        Outcome.transientFailure e ∨
      (download_video backend entry existing_files).outcome =
        Outcome.permanentFailure e) := by
  unfold download_video
  simp only [hdup, if_false, hu, hb]
  unfold classifyFailure
  by_cases ht : isTransientMsg e = true <;> simp [ht]

/-- Witness for C2 at a backend that fails with message `"boom"`. -/
theorem download_video_catches_backend_errors_witness :
    (download_video (fun _ => Except.error "boom") ⟨some "t", some "u"⟩
        ∅).retVal = false ∧
    ((download_video (fun _ => Except.error "boom") ⟨some "t", some "u"⟩
          ∅).outcome = Outcome.transientFailure "boom" ∨
      (download_video (fun _ => Except.error "boom") ⟨some "t", some "u"⟩
          ∅).outcome = Outcome.permanentFailure "boom") :=
  download_video_catches_backend_errors (fun _ => Except.error "boom")
    ⟨some "t", some "u"⟩ ∅ "u" "boom" rfl rfl (by decide)

/-- C3: a backend error whose message contains `"try again later"` in any
letter case is classified transient and the job sleeps the fixed 10
seconds before returning; a message containing neither `"try again
later"` nor `"content isn't available"` (e.g. `"disk full"`) is classified
permanent and the job does not sleep. -/
theorem download_video_transient_classification
    (backend : String → Except String Unit) (entry : Entry)
    (existing_files : Finset String) (u e : String)
    (hu : entry.url = some u) (hb : backend u = Except.error e)
    (hdup : dvFilename entry ∉ existing_files) :
    (strContainsSub (strLower e) tryAgainPhrase = true →
      (download_video backend entry existing_files).outcome =
          Outcome.transientFailure e ∧
        (download_video backend entry existing_files).sleepSeconds = 10) ∧
    (strContainsSub (strLower e) tryAgainPhrase = false ∧
        strContainsSub (strLower e) contentUnavailablePhrase = false →
      (download_video backend entry existing_files).outcome =
          Outcome.permanentFailure e ∧
        (download_video backend entry existing_files).sleepSeconds = 0) := by
  unfold download_video
  simp only [hdup, if_false, hu, hb]
  unfold classifyFailure isTransientMsg
  constructor
  · intro h
    simp [h]
  · intro h
    simp [h.1, h.2]

/-- Witness for C3: the mixed-case message `"Please Try Again Later!"` is
classified transient with the 10-second sleep. -/
theorem download_video_transient_classification_witness :
    (download_video (fun _ => Except.error "Please Try Again Later!")
        ⟨some "t", some "u"⟩ ∅).outcome =
      Outcome.transientFailure "Please Try Again Later!" ∧
    (download_video (fun _ => Except.error "Please Try Again Later!")
        ⟨some "t", some "u"⟩ ∅).sleepSeconds = 10 :=
  (download_video_transient_classification
    (fun _ => Except.error "Please Try Again Later!") ⟨some "t", some "u"⟩
    ∅ "u" "Please Try Again Later!" rfl rfl (by decide)).1 (by decide)

/-- C4: the index a `download_video` job returns is the input index with
the job's filename inserted exactly when the job's outcome is `Success`
(the insertion at line 130 runs immediately after the backend call
returns), and is the input index unchanged on the skipped-duplicate,
transient-failure and permanent-failure paths. -/
theorem download_video_index_mutation_on_success_only
    (backend : String → Except String Unit) (entry : Entry)
    (existing_files : Finset String) :
    ((download_video backend entry existing_files).outcome =
        Outcome.success →
      (download_video backend entry existing_files).index =
        insert (dvFilename entry) existing_files) ∧
    ((download_video backend entry existing_files).outcome ≠
        Outcome.success →
      (download_video backend entry existing_files).index =
        existing_files) := by
  unfold download_video
  by_cases hdup : dvFilename entry ∈ existing_files
  · simp [hdup]
  · simp only [hdup, if_false]
    cases hurl : entry.url with
    | none =>
      simp only [hurl]
      unfold classifyFailure
      by_cases ht : isTransientMsg keyErrUrl = true <;> simp [ht]
    | some u =>
      simp only [hurl]
      cases backend u with
      | ok _ => simp
      | error e =>
        unfold classifyFailure
        by_cases ht : isTransientMsg e = true <;> simp [ht]

/-- Witness for C4: with an always-succeeding backend and an empty index,
the success path inserts exactly the job's filename. -/
theorem download_video_index_mutation_on_success_only_witness :
    (download_video (fun _ => Except.ok ()) ⟨some "t", some "u"⟩ ∅).index =
      insert (dvFilename ⟨some "t", some "u"⟩) ∅ :=
  (download_video_index_mutation_on_success_only (fun _ => Except.ok ())
    ⟨some "t", some "u"⟩ ∅).1 (by decide)

/-- C5: an error raised while processing one playlist (URL resolution or
directory creation, i.e. any error of `processPlaylistCore`) is caught by
the per-playlist handler and turned into a reported `failed` value, and
the remaining playlists are processed exactly as they would be on their
own — one failing collection never aborts the batch. -/
theorem playlist_failure_isolated
    (resolve : String → Except String PlaylistInfo)
    (mkdir : String → Except String Unit)
    (dirFiles : String → Finset String)
    (backend : String → Except String Unit)
    (u : String) (us : List String) (e : String)
    (h : processPlaylistCore resolve mkdir dirFiles backend u =
      Except.error e) :
    processPlaylists resolve mkdir dirFiles backend (u :: us) =
      PlaylistResult.failed e ::
        processPlaylists resolve mkdir dirFiles backend us := by
  simp [processPlaylists, processPlaylist, h]

/-- Witness for C5: a resolver that always fails yields a `failed` head
result followed by the unaffected processing of the second URL. -/
theorem playlist_failure_isolated_witness :
    processPlaylists (fun _ => Except.error "cannot resolve")
        (fun _ => Except.ok ()) (fun _ => ∅) (fun _ => Except.ok ())
        ["a", "b"] =
      PlaylistResult.failed "cannot resolve" ::
        processPlaylists (fun _ => Except.error "cannot resolve")
          (fun _ => Except.ok ()) (fun _ => ∅) (fun _ => Except.ok ())
          ["b"] :=
  playlist_failure_isolated (fun _ => Except.error "cannot resolve")
    (fun _ => Except.ok ()) (fun _ => ∅) (fun _ => Except.ok ())
    "a" ["b"] "cannot resolve" rfl

/-- C6: processing a playlist of N entries advances the progress bar
exactly N times — once for each entry pre-skipped as a duplicate in the
submission loop and once for each submitted job that completes, whatever
its outcome. -/
theorem collection_advances_once_per_entry
    (backend : String → Except String Unit) (existing : Finset String)
    (entries : List Entry) :
    collectionAdvances backend existing entries = entries.length := by
  show (runJobs backend existing (submitPhase existing entries).2).1 +
      (submitPhase existing entries).1 = entries.length
  rw [runJobs_count]
  have h := submitPhase_count existing entries
  omega

/-- Counterexample to C7: a descriptor whose source reference is the
empty string is not pre-checked — its empty URL is handed straight to the
backend (`backendCalls = 1`, not 0), and the resulting outcome carries the
backend's message, not `"missing source reference"`. -/
theorem empty_source_ref_calls_backend_cex :
    (download_video (fun _ => Except.error "network unreachable")
        ⟨some "t", some ""⟩ ∅).backendCalls = 1 ∧
    (download_video (fun _ => Except.error "network unreachable")
        ⟨some "t", some ""⟩ ∅).outcome ≠
      Outcome.permanentFailure "missing source reference" := by
  constructor
  · decide
  · decide

/-- C7 as amended: a descriptor with an absent `url` key raises
`KeyError('url')` inside the `try` before any backend call; the exception
is caught and classified like a backend error, giving a permanent-failure
outcome whose reason is the key-error message `'url'`, with zero backend
calls and no cooldown.  A descriptor whose `url` is present but empty is
not pre-checked: the empty reference is passed to the backend
(one backend call). -/
theorem missing_source_ref_keyerror
    (backend : String → Except String Unit) (t : Option String)
    (existing_files : Finset String)
    (hdup : dvFilename ⟨t, none⟩ ∉ existing_files) :
    download_video backend ⟨t, none⟩ existing_files =
      ⟨Outcome.permanentFailure keyErrUrl, false, existing_files, 0, 0⟩ ∧
    (download_video backend ⟨t, some ""⟩ existing_files).backendCalls =
      1 := by
  constructor
  · unfold download_video
    simp only [hdup, if_false]
    unfold classifyFailure
    simp [keyErrUrl_not_transient]
  · unfold download_video
    have hdup' : dvFilename ⟨t, some ""⟩ ∉ existing_files := hdup
    simp only [hdup', if_false]
    cases backend "" with
    | ok _ => simp
    | error e =>
      unfold classifyFailure
      by_cases ht : isTransientMsg e = true <;> simp [ht]

/-- Witness for C7's amended statement: concrete descriptors with absent
and with empty `url` against an always-succeeding backend. -/
theorem missing_source_ref_keyerror_witness :
    download_video (fun _ => Except.ok ()) ⟨some "t", none⟩ ∅ =
      ⟨Outcome.permanentFailure keyErrUrl, false, ∅, 0, 0⟩ ∧
    (download_video (fun _ => Except.ok ()) ⟨some "t", some ""⟩
        ∅).backendCalls = 1 :=
  missing_source_ref_keyerror (fun _ => Except.ok ()) (some "t") ∅
    (by decide)

/-- Counterexample to C8: in the event trace of a successful
`download_video` job, the duplicate-check read of `existing_files` (line
102 of the source) executes while no lock is held — the script's only
lock, `console_lock`, guards console prints, so the claimed mutual
exclusion of index accesses does not hold. -/
theorem index_access_unlocked_cex :
    ¬ indexAccessesLocked
        (downloadTrace (fun _ => Except.ok ()) ⟨some "t", some "u"⟩ ∅) := by
  decide

/-- C8 as amended: on every path of `download_video`, each read or write
of `existing_files` executes while zero locks are held, and every console
print executes while exactly one lock (`console_lock`) is held: the
script serializes console output, not index access, so one job's
check-then-insert sequence is not protected against interleaving with
another job's index accesses. -/
theorem download_trace_lock_discipline
    (backend : String → Except String Unit) (entry : Entry)
    (existing_files : Finset String) (p : JobEvent × Nat)
    (hp : p ∈ annotateDepth 0 (downloadTrace backend entry existing_files)) :
    ((p.1 = JobEvent.indexRead ∨ p.1 = JobEvent.indexWrite) → p.2 = 0) ∧
    (p.1 = JobEvent.consoleMsg → p.2 = 1) := by
  unfold downloadTrace at hp
  by_cases hdup : dvFilename entry ∈ existing_files
  · simp only [hdup, if_true] at hp
    fin_cases hp <;> simp
  · simp only [hdup, if_false] at hp
    cases hurl : entry.url with
    | none =>
      simp only [hurl, failActions, keyErrUrl_not_transient] at hp
      simp only [Bool.false_eq_true, if_false, List.append_nil] at hp
      fin_cases hp <;> simp
    | some u =>
      simp only [hurl] at hp
      cases hb : backend u with
      | ok a =>
        rw [hb] at hp
        fin_cases hp <;> simp
      | error e =>
        rw [hb] at hp
        by_cases ht : isTransientMsg e = true
        · simp only [failActions, ht, if_true] at hp
          fin_cases hp <;> simp
        · simp only [failActions, ht, Bool.false_eq_true, if_false,
            List.append_nil] at hp
          fin_cases hp <;> simp

/-- Witness for C8's amended statement: the duplicate-check read, the
first event of a successful job's trace, runs at lock depth 0. -/
theorem download_trace_lock_discipline_witness :
    (JobEvent.indexRead, (0 : Nat)).2 = 0 :=
  (download_trace_lock_discipline (fun _ => Except.ok ())
    ⟨some "t", some "u"⟩ ∅ (JobEvent.indexRead, 0) (by decide)).1
    (Or.inl rfl)

/-- Counterexample to C9: a descriptor whose `title` key is present but
empty does not get the placeholder — its filename is just `".mp3"`, not
the sanitized placeholder plus `".mp3"`. -/
theorem empty_title_not_placeholder_cex :
    dvFilename ⟨some "", some "u"⟩ = ".mp3" ∧
    dvFilename ⟨some "", some "u"⟩ ≠
      sanitize_folder_name "unknown_title" ++ ".mp3" := by
  constructor
  · rfl
  · decide

/-- C9 as amended: only a descriptor whose `title` key is absent gets the
default placeholder `unknown_title` (filename `"unknown_title.mp3"`); a
present-but-empty title is used as-is and yields the filename `".mp3"`. -/
theorem title_placeholder_only_when_missing (url : Option String) :
    dvFilename ⟨none, url⟩ = "unknown_title.mp3" ∧
    dvFilename ⟨some "", url⟩ = ".mp3" :=
  ⟨rfl, rfl⟩

/-- C10: the name sanitizer is idempotent — sanitizing an already
sanitized string changes nothing, since the output never contains a
reserved character. -/
theorem sanitize_folder_name_idempotent (s : String) :
    sanitize_folder_name (sanitize_folder_name s) =
      sanitize_folder_name s := by
  show String.mk (sanAux false (sanAux false s.data)) =
    String.mk (sanAux false s.data)
  rw [sanAux_fixed _ (sanAux_no_reserved s.data false)]
